import Mathlib

/-
Verification development for the wifi_manager repository.

Shallow embedding of the connection-lifecycle engine:
  - src/include/wifi_types.hpp      : State / CommandId / EventId / Message / sync bits
  - src/wifi_state_machine.cpp      : command matrix, transition matrix, retry bookkeeping
  - src/include/wifi_state_machine.hpp : RSSI thresholds and retry limits
  - src/wifi_manager.cpp            : worker-task message processing (older inline revision)
  - src/wifi_event_handler.cpp      : driver-event translator

Machine integers are modelled as Nat with explicit `% 2 ^ 32` / `% 2 ^ 64`
where the C code uses uint32_t / uint64_t and wrap-around is reachable.
Monotonic time (esp_timer_get_time() / 1000) is passed in as a `now_ms`
parameter.
-/

set_option maxRecDepth 4000

namespace WifiManager

/-- States of the manager, from src/include/wifi_types.hpp lines 12-30
(same enumeration in src/include/wifi_manager.hpp lines 45-65). -/
inductive State
  | UNINITIALIZED
  | INITIALIZING
  | INITIALIZED
  | STARTING
  | STARTED
  | CONNECTING
  | CONNECTED_NO_IP
  | CONNECTED_GOT_IP
  | DISCONNECTING
  | WAITING_RECONNECT
  | ERROR_CREDENTIALS
  | STOPPING
deriving DecidableEq

/-- Alias from the source: `DISCONNECTED = STARTED` (radio on, no association). -/
def State.DISCONNECTED : State := State.STARTED

/-- Alias from the source: `STOPPED = INITIALIZED` (resources live, radio off). -/
def State.STOPPED : State := State.INITIALIZED

/-- Commands of the queue, from src/include/wifi_types.hpp lines 32-40. -/
inductive CommandId
  | START
  | STOP
  | CONNECT
  | DISCONNECT
  | EXIT
deriving DecidableEq

/-- Events of the queue, from src/include/wifi_types.hpp lines 42-51. -/
inductive EventId
  | STA_START
  | STA_STOP
  | STA_CONNECTED
  | STA_DISCONNECTED
  | GOT_IP
  | LOST_IP
deriving DecidableEq

/-- Validator verdicts, from src/include/wifi_state_machine.hpp lines 21-26. -/
inductive Action
  | EXECUTE
  | SKIP
  | ERROR
deriving DecidableEq

/-- Sync bits, from src/include/wifi_types.hpp lines 78-85 (same values in
src/wifi_state_machine.cpp lines 6-13). -/
def STARTED_BIT : Nat := 1 <<< 0

def STOPPED_BIT : Nat := 1 <<< 1

def CONNECTED_BIT : Nat := 1 <<< 2

def DISCONNECTED_BIT : Nat := 1 <<< 3

def CONNECT_FAILED_BIT : Nat := 1 <<< 4

def START_FAILED_BIT : Nat := 1 <<< 5

def STOP_FAILED_BIT : Nat := 1 <<< 6

def INVALID_STATE_BIT : Nat := 1 <<< 7

/-- Outcome of resolving an event, from src/include/wifi_state_machine.hpp
lines 28-32. -/
structure EventOutcome where
  next_state : State
  bits_to_set : Nat
deriving DecidableEq

/-- The command-validation lookup table
`WiFiStateMachine::s_command_matrix`, from src/wifi_state_machine.cpp
lines 30-44 (textually identical to `WiFiManager::command_matrix` in
src/include/wifi_manager.hpp lines 432-446).  Rows are states, columns
are commands in declaration order START, STOP, CONNECT, DISCONNECT, EXIT. -/
def s_command_matrix : State → CommandId → Action
  | .UNINITIALIZED, c => match c with
    | .START => .ERROR | .STOP => .ERROR | .CONNECT => .ERROR | .DISCONNECT => .ERROR | .EXIT => .ERROR
  | .INITIALIZING, c => match c with
    | .START => .ERROR | .STOP => .ERROR | .CONNECT => .ERROR | .DISCONNECT => .ERROR | .EXIT => .ERROR
  | .INITIALIZED, c => match c with
    | .START => .EXECUTE | .STOP => .SKIP | .CONNECT => .ERROR | .DISCONNECT => .ERROR | .EXIT => .ERROR
  | .STARTING, c => match c with
    | .START => .SKIP | .STOP => .EXECUTE | .CONNECT => .ERROR | .DISCONNECT => .ERROR | .EXIT => .ERROR
  | .STARTED, c => match c with
    | .START => .SKIP | .STOP => .EXECUTE | .CONNECT => .EXECUTE | .DISCONNECT => .SKIP | .EXIT => .ERROR
  | .CONNECTING, c => match c with
    | .START => .SKIP | .STOP => .EXECUTE | .CONNECT => .SKIP | .DISCONNECT => .EXECUTE | .EXIT => .ERROR
  | .CONNECTED_NO_IP, c => match c with
    | .START => .SKIP | .STOP => .EXECUTE | .CONNECT => .SKIP | .DISCONNECT => .EXECUTE | .EXIT => .ERROR
  | .CONNECTED_GOT_IP, c => match c with
    | .START => .SKIP | .STOP => .EXECUTE | .CONNECT => .SKIP | .DISCONNECT => .EXECUTE | .EXIT => .ERROR
  | .DISCONNECTING, c => match c with
    | .START => .SKIP | .STOP => .EXECUTE | .CONNECT => .ERROR | .DISCONNECT => .SKIP | .EXIT => .ERROR
  | .WAITING_RECONNECT, c => match c with
    | .START => .SKIP | .STOP => .EXECUTE | .CONNECT => .EXECUTE | .DISCONNECT => .EXECUTE | .EXIT => .ERROR
  | .ERROR_CREDENTIALS, c => match c with
    | .START => .SKIP | .STOP => .EXECUTE | .CONNECT => .EXECUTE | .DISCONNECT => .EXECUTE | .EXIT => .ERROR
  | .STOPPING, c => match c with
    | .START => .ERROR | .STOP => .SKIP | .CONNECT => .ERROR | .DISCONNECT => .ERROR | .EXIT => .ERROR

/-- The event-transition lookup table
`WiFiStateMachine::s_transition_matrix`, from src/wifi_state_machine.cpp
lines 46-131 (textually identical to `WiFiManager::transition_matrix` in
src/include/wifi_manager.hpp lines 452-538).  Rows are states, columns are
events in declaration order STA_START, STA_STOP, STA_CONNECTED,
STA_DISCONNECTED, GOT_IP, LOST_IP. -/
def s_transition_matrix : State → EventId → EventOutcome
  | .UNINITIALIZED, e => match e with
    | .STA_START => ⟨.UNINITIALIZED, 0⟩
    | .STA_STOP => ⟨.UNINITIALIZED, 0⟩
    | .STA_CONNECTED => ⟨.UNINITIALIZED, 0⟩
    | .STA_DISCONNECTED => ⟨.UNINITIALIZED, 0⟩
    | .GOT_IP => ⟨.UNINITIALIZED, 0⟩
    | .LOST_IP => ⟨.UNINITIALIZED, 0⟩
  | .INITIALIZING, e => match e with
    | .STA_START => ⟨.INITIALIZING, 0⟩
    | .STA_STOP => ⟨.INITIALIZING, 0⟩
    | .STA_CONNECTED => ⟨.INITIALIZING, 0⟩
    | .STA_DISCONNECTED => ⟨.INITIALIZING, 0⟩
    | .GOT_IP => ⟨.INITIALIZING, 0⟩
    | .LOST_IP => ⟨.INITIALIZING, 0⟩
  | .INITIALIZED, e => match e with
    | .STA_START => ⟨.INITIALIZED, 0⟩
    | .STA_STOP => ⟨.INITIALIZED, 0⟩
    | .STA_CONNECTED => ⟨.INITIALIZED, 0⟩
    | .STA_DISCONNECTED => ⟨.INITIALIZED, 0⟩
    | .GOT_IP => ⟨.INITIALIZED, 0⟩
    | .LOST_IP => ⟨.INITIALIZED, 0⟩
  | .STARTING, e => match e with
    | .STA_START => ⟨.STARTED, STARTED_BIT⟩
    | .STA_STOP => ⟨.STARTING, 0⟩
    | .STA_CONNECTED => ⟨.STARTING, 0⟩
    | .STA_DISCONNECTED => ⟨.INITIALIZED, START_FAILED_BIT⟩
    | .GOT_IP => ⟨.STARTING, 0⟩
    | .LOST_IP => ⟨.STARTING, 0⟩
  | .STARTED, e => match e with
    | .STA_START => ⟨.STARTED, 0⟩
    | .STA_STOP => ⟨.STARTED, 0⟩
    | .STA_CONNECTED => ⟨.STARTED, 0⟩
    | .STA_DISCONNECTED => ⟨.STARTED, 0⟩
    | .GOT_IP => ⟨.STARTED, 0⟩
    | .LOST_IP => ⟨.STARTED, 0⟩
  | .CONNECTING, e => match e with
    | .STA_START => ⟨.CONNECTING, 0⟩
    | .STA_STOP => ⟨.CONNECTING, 0⟩
    | .STA_CONNECTED => ⟨.CONNECTED_NO_IP, 0⟩
    | .STA_DISCONNECTED => ⟨.WAITING_RECONNECT, 0⟩
    | .GOT_IP => ⟨.CONNECTED_GOT_IP, CONNECTED_BIT⟩
    | .LOST_IP => ⟨.CONNECTING, 0⟩
  | .CONNECTED_NO_IP, e => match e with
    | .STA_START => ⟨.CONNECTED_NO_IP, 0⟩
    | .STA_STOP => ⟨.CONNECTED_NO_IP, 0⟩
    | .STA_CONNECTED => ⟨.CONNECTED_NO_IP, 0⟩
    | .STA_DISCONNECTED => ⟨.WAITING_RECONNECT, 0⟩
    | .GOT_IP => ⟨.CONNECTED_GOT_IP, CONNECTED_BIT⟩
    | .LOST_IP => ⟨.CONNECTED_NO_IP, 0⟩
  | .CONNECTED_GOT_IP, e => match e with
    | .STA_START => ⟨.CONNECTED_GOT_IP, 0⟩
    | .STA_STOP => ⟨.CONNECTED_GOT_IP, 0⟩
    | .STA_CONNECTED => ⟨.CONNECTED_GOT_IP, 0⟩
    | .STA_DISCONNECTED => ⟨.WAITING_RECONNECT, 0⟩
    | .GOT_IP => ⟨.CONNECTED_GOT_IP, 0⟩
    | .LOST_IP => ⟨.CONNECTED_NO_IP, 0⟩
  | .DISCONNECTING, e => match e with
    | .STA_START => ⟨.DISCONNECTING, 0⟩
    | .STA_STOP => ⟨.DISCONNECTING, 0⟩
    | .STA_CONNECTED => ⟨.DISCONNECTING, 0⟩
    | .STA_DISCONNECTED => ⟨.STARTED, DISCONNECTED_BIT⟩
    | .GOT_IP => ⟨.DISCONNECTING, 0⟩
    | .LOST_IP => ⟨.DISCONNECTING, 0⟩
  | .WAITING_RECONNECT, e => match e with
    | .STA_START => ⟨.WAITING_RECONNECT, 0⟩
    | .STA_STOP => ⟨.WAITING_RECONNECT, 0⟩
    | .STA_CONNECTED => ⟨.WAITING_RECONNECT, 0⟩
    | .STA_DISCONNECTED => ⟨.WAITING_RECONNECT, 0⟩
    | .GOT_IP => ⟨.WAITING_RECONNECT, 0⟩
    | .LOST_IP => ⟨.WAITING_RECONNECT, 0⟩
  | .ERROR_CREDENTIALS, e => match e with
    | .STA_START => ⟨.ERROR_CREDENTIALS, 0⟩
    | .STA_STOP => ⟨.ERROR_CREDENTIALS, 0⟩
    | .STA_CONNECTED => ⟨.ERROR_CREDENTIALS, 0⟩
    | .STA_DISCONNECTED => ⟨.ERROR_CREDENTIALS, 0⟩
    | .GOT_IP => ⟨.ERROR_CREDENTIALS, 0⟩
    | .LOST_IP => ⟨.ERROR_CREDENTIALS, 0⟩
  | .STOPPING, e => match e with
    | .STA_START => ⟨.STOPPING, 0⟩
    | .STA_STOP => ⟨.INITIALIZED, STOPPED_BIT⟩
    | .STA_CONNECTED => ⟨.STOPPING, 0⟩
    | .STA_DISCONNECTED => ⟨.STOPPING, 0⟩
    | .GOT_IP => ⟨.STOPPING, 0⟩
    | .LOST_IP => ⟨.STOPPING, 0⟩

/-- The four user commands of the spec's condensed command-validation table
(section 4.1); the table has no EXIT column. -/
inductive UserCmd
  | START
  | STOP
  | CONNECT
  | DISCONNECT
deriving DecidableEq

/-- Injection of the spec's table columns into the command enumeration. -/
def UserCmd.toCommandId : UserCmd → CommandId
  | .START => .START
  | .STOP => .STOP
  | .CONNECT => .CONNECT
  | .DISCONNECT => .DISCONNECT

/-- Modelled from the spec: the condensed command-validation table of
section 4.1 (rows "UNINITIALIZED, INITIALIZING | ERROR ERROR ERROR ERROR"
through "STOPPING | ERROR SKIP ERROR ERROR"), written from the spec's
words for comparison with the source table `s_command_matrix`. -/
def spec_command_table : State → UserCmd → Action
  | .UNINITIALIZED, _ => .ERROR
  | .INITIALIZING, _ => .ERROR
  | .INITIALIZED, u => match u with
    | .START => .EXECUTE | .STOP => .SKIP | .CONNECT => .ERROR | .DISCONNECT => .ERROR
  | .STARTING, u => match u with
    | .START => .SKIP | .STOP => .EXECUTE | .CONNECT => .ERROR | .DISCONNECT => .ERROR
  | .STARTED, u => match u with
    | .START => .SKIP | .STOP => .EXECUTE | .CONNECT => .EXECUTE | .DISCONNECT => .SKIP
  | .CONNECTING, u => match u with
    | .START => .SKIP | .STOP => .EXECUTE | .CONNECT => .SKIP | .DISCONNECT => .EXECUTE
  | .CONNECTED_NO_IP, u => match u with
    | .START => .SKIP | .STOP => .EXECUTE | .CONNECT => .SKIP | .DISCONNECT => .EXECUTE
  | .CONNECTED_GOT_IP, u => match u with
    | .START => .SKIP | .STOP => .EXECUTE | .CONNECT => .SKIP | .DISCONNECT => .EXECUTE
  | .DISCONNECTING, u => match u with
    | .START => .SKIP | .STOP => .EXECUTE | .CONNECT => .ERROR | .DISCONNECT => .SKIP
  | .WAITING_RECONNECT, u => match u with
    | .START => .SKIP | .STOP => .EXECUTE | .CONNECT => .EXECUTE | .DISCONNECT => .EXECUTE
  | .ERROR_CREDENTIALS, u => match u with
    | .START => .SKIP | .STOP => .EXECUTE | .CONNECT => .EXECUTE | .DISCONNECT => .EXECUTE
  | .STOPPING, u => match u with
    | .START => .ERROR | .STOP => .SKIP | .CONNECT => .ERROR | .DISCONNECT => .ERROR

/-- Mutable members of `WiFiStateMachine`, from
src/include/wifi_state_machine.hpp lines 117-121.  `m_retry_count` and
`m_suspect_retry_count` are uint32_t, `m_next_reconnect_ms` is uint64_t. -/
structure WiFiStateMachine where
  m_current_state : State
  m_retry_count : Nat
  m_suspect_retry_count : Nat
  m_next_reconnect_ms : Nat
deriving DecidableEq

/-- Decoding of a raw command value into the enumeration, for the
in-range values 0..4 (declaration order of src/include/wifi_types.hpp). -/
def commandIdOfNat : Nat → CommandId
  | 0 => .START
  | 1 => .STOP
  | 2 => .CONNECT
  | 3 => .DISCONNECT
  | _ => .EXIT

/-- Decoding of a raw event value into the enumeration, for the
in-range values 0..5 (declaration order of src/include/wifi_types.hpp). -/
def eventIdOfNat : Nat → EventId
  | 0 => .STA_START
  | 1 => .STA_STOP
  | 2 => .STA_CONNECTED
  | 3 => .STA_DISCONNECTED
  | 4 => .GOT_IP
  | _ => .LOST_IP

/-- `WiFiStateMachine::validate_command`, from src/wifi_state_machine.cpp
lines 141-146: a raw command value at or above `CommandId::COUNT` (= 5)
returns `Action::EXECUTE`; otherwise the matrix row of the current state
is consulted. -/
def validate_command (sm : WiFiStateMachine) (cmd : Nat) : Action :=
  if 5 ≤ cmd then Action.EXECUTE
  else s_command_matrix sm.m_current_state (commandIdOfNat cmd)

/-- `WiFiStateMachine::resolve_event`, from src/wifi_state_machine.cpp
lines 148-153: a raw event value at or above `EventId::COUNT` (= 6)
returns the current state with no bits; otherwise the matrix cell. -/
def resolve_event (sm : WiFiStateMachine) (event : Nat) : EventOutcome :=
  if 6 ≤ event then ⟨sm.m_current_state, 0⟩
  else s_transition_matrix sm.m_current_state (eventIdOfNat event)

/-- `WiFiStateMachine::reset_retries`, from src/wifi_state_machine.cpp
lines 160-164. -/
def reset_retries (sm : WiFiStateMachine) : WiFiStateMachine :=
  { sm with m_retry_count := 0, m_suspect_retry_count := 0 }

/-- `WiFiStateMachine::handle_suspect_failure`, from
src/wifi_state_machine.cpp lines 166-174.  The body as written takes no
RSSI argument (unlike its declaration in src/include/wifi_state_machine.hpp
line 68): it increments `m_suspect_retry_count` (uint32_t) and is terminal,
moving to ERROR_CREDENTIALS, exactly when the counter reaches the fixed
literal 3. -/
def handle_suspect_failure (sm : WiFiStateMachine) : WiFiStateMachine × Bool :=
  let c := (sm.m_suspect_retry_count + 1) % 2 ^ 32
  if 3 ≤ c then
    ({ sm with m_suspect_retry_count := c, m_current_state := State.ERROR_CREDENTIALS }, true)
  else
    ({ sm with m_suspect_retry_count := c }, false)

/-- RSSI thresholds (dBm), from src/include/wifi_state_machine.hpp
lines 104-106. -/
def RSSI_THRESHOLD_GOOD : Int := -55

def RSSI_THRESHOLD_MEDIUM : Int := -67

def RSSI_THRESHOLD_WEAK : Int := -80

/-- Retry limits based on signal quality, from
src/include/wifi_state_machine.hpp lines 109-111. -/
def RETRY_LIMIT_GOOD : Nat := 1

def RETRY_LIMIT_MEDIUM : Nat := 2

def RETRY_LIMIT_WEAK : Nat := 5

/-- Modelled from the spec: the RSSI-indexed suspect retry limit of
section 4.2 (limit 1 at rssi ≥ −55, 2 at rssi ≥ −67, 5 at rssi ≥ −80, and
no limit below −80), built on the threshold and limit constants declared in
src/include/wifi_state_machine.hpp lines 99-111; the implementation of this
tiering is missing from the body of `handle_suspect_failure` in
src/wifi_state_machine.cpp.  `none` means "never terminal". -/
def suspect_retry_limit_spec (rssi : Int) : Option Nat :=
  if RSSI_THRESHOLD_GOOD ≤ rssi then some RETRY_LIMIT_GOOD
  else if RSSI_THRESHOLD_MEDIUM ≤ rssi then some RETRY_LIMIT_MEDIUM
  else if RSSI_THRESHOLD_WEAK ≤ rssi then some RETRY_LIMIT_WEAK
  else none

/-- The delay computation of `WiFiStateMachine::calculate_next_backoff`,
from src/wifi_state_machine.cpp lines 180-187: the exponent is the
post-increment retry count minus one, capped at 8, and the resulting
`(1UL << exponent) * 1000UL` is capped at 300000 ms. -/
def backoff_delay_of (retry_count : Nat) : Nat :=
  let exponent := if 0 < retry_count then retry_count - 1 else 0
  let exponent := if 8 < exponent then 8 else exponent
  let delay_ms := (1 <<< exponent) * 1000
  if 300000 < delay_ms then 300000 else delay_ms

/-- `WiFiStateMachine::calculate_next_backoff`, from
src/wifi_state_machine.cpp lines 176-192: increment `m_retry_count`
(uint32_t), compute the capped exponential delay, set
`m_next_reconnect_ms` (uint64_t) to now (ms, from esp_timer_get_time()/1000,
passed as `now_ms`) plus the delay, and move to WAITING_RECONNECT.
Returns the new state and the delay written to `delay_ms_out`. -/
def calculate_next_backoff (sm : WiFiStateMachine) (now_ms : Nat) :
    WiFiStateMachine × Nat :=
  let rc := (sm.m_retry_count + 1) % 2 ^ 32
  let delay_ms := backoff_delay_of rc
  ({ sm with m_retry_count := rc,
             m_next_reconnect_ms := (now_ms + delay_ms) % 2 ^ 64,
             m_current_state := State.WAITING_RECONNECT }, delay_ms)

/-- The sequence of delays produced by repeated `calculate_next_backoff`
calls starting from a given machine (time held at 0; the delay does not
depend on the clock). -/
def backoff_schedule_from : Nat → WiFiStateMachine → List Nat
  | 0, _ => []
  | n + 1, sm =>
      let r := calculate_next_backoff sm 0
      r.2 :: backoff_schedule_from n r.1

/-- Delays of the first `n` backoffs starting with `m_retry_count = 0`. -/
def backoff_delay_schedule (n : Nat) : List Nat :=
  backoff_schedule_from n ⟨State.STARTED, 0, 0, 0⟩

/-- Message discriminator, from src/include/wifi_types.hpp lines 56-60. -/
inductive MessageType
  | COMMAND
  | EVENT
deriving DecidableEq

/-- The union member of `Message` (src/include/wifi_types.hpp lines 68-72),
modelled as a sum. -/
inductive MsgPayload
  | cmd (c : CommandId)
  | ev (e : EventId)
deriving DecidableEq

/-- Queue element, from src/include/wifi_types.hpp lines 65-75. -/
structure Message where
  type : MessageType
  payload : MsgPayload
  reason : Nat
  rssi : Int
deriving DecidableEq

/-- IP event ids from ESP-IDF ip_event_t (declaration order); only their
identity matters to the code. -/
def IP_EVENT_STA_GOT_IP : Nat := 0

def IP_EVENT_STA_LOST_IP : Nat := 1

/-- `WiFiEventHandler::ip_event_handler`, from src/wifi_event_handler.cpp
lines 44-61: with a usable queue, only IP_EVENT_STA_GOT_IP produces a
message (an EVENT carrying EventId::GOT_IP); every other ip event id
returns without enqueuing anything. -/
def ip_event_handler (queue_ok : Bool) (id : Nat) : Option Message :=
  if queue_ok = false then none
  else if id = IP_EVENT_STA_GOT_IP then
    some ⟨MessageType.EVENT, MsgPayload.ev EventId.GOT_IP, 0, 0⟩
  else none

/-- Queue command ids used by the worker switch of src/wifi_manager.cpp
lines 770-1152: the four user commands, the two bridged event ids that the
system-event callbacks post (lines 713-737), and EXIT.  (The revision of
the header that declared this enumeration is not in the tree; the
enumeration is reconstructed from its uses in src/wifi_manager.cpp.) -/
inductive MgrCommandId
  | START
  | STOP
  | CONNECT
  | DISCONNECT
  | HANDLE_EVENT_WIFI
  | HANDLE_EVENT_IP
  | EXIT
deriving DecidableEq

/-- Mutable members of `WiFiManager` relevant to message processing, from
src/include/wifi_manager.hpp lines 389-397.  `retry_count` and
`suspect_retry_count` are uint32_t, `next_reconnect_ms` is uint64_t. -/
structure MgrState where
  current_state : State
  is_credential_valid : Bool
  retry_count : Nat
  suspect_retry_count : Nat
  next_reconnect_ms : Nat
deriving DecidableEq

/-- ESP-IDF disconnect reason codes referenced by src/wifi_manager.cpp;
the code recognizes them by identity, the numeric values are those of
esp_wifi_types.h (WIFI_REASON_802_1X_AUTH_FAILED is spelled without the
underscore after 802 because a Lean name cannot contain `802_1X`
verbatim). -/
def WIFI_REASON_ASSOC_LEAVE : Nat := 8

def WIFI_REASON_4WAY_HANDSHAKE_TIMEOUT : Nat := 15

def WIFI_REASON_8021X_AUTH_FAILED : Nat := 23

def WIFI_REASON_BEACON_TIMEOUT : Nat := 200

def WIFI_REASON_NO_AP_FOUND : Nat := 201

def WIFI_REASON_AUTH_FAIL : Nat := 202

def WIFI_REASON_HANDSHAKE_TIMEOUT : Nat := 204

def WIFI_REASON_CONNECTION_FAIL : Nat := 205

/-- The worker-loop prologue, src/wifi_manager.cpp lines 764-768: any
dequeued message whose command id is not HANDLE_EVENT_WIFI and not
HANDLE_EVENT_IP zeroes both retry counters before the command switch. -/
def worker_prologue (m : MgrState) (cmd : MgrCommandId) : MgrState :=
  if cmd ≠ MgrCommandId.HANDLE_EVENT_WIFI ∧ cmd ≠ MgrCommandId.HANDLE_EVENT_IP then
    { m with retry_count := 0, suspect_retry_count := 0 }
  else m

/-- The WIFI_EVENT_STA_DISCONNECTED processing of src/wifi_manager.cpp
lines 1035-1122.  Returns the updated manager state and the sync bits
released.  `now_ms` stands for esp_timer_get_time()/1000.  The `% 2 ^ 32`
wraps model the uint32_t counters and the uint32_t delay product
`(1 << (retry_count - 1)) * 1000` (whose C evaluation additionally has
undefined behaviour for large counts; those counts are unreachable in the
claims below).  The guard for inactive states lists UNINITIALIZED,
INITIALIZING, INITIALIZED and STOPPED; STOPPED is the alias of
INITIALIZED, so three comparisons cover the four labels. -/
def sta_disconnected_handler (m : MgrState) (reason : Nat) (now_ms : Nat) :
    MgrState × Nat :=
  let s := m.current_state
  if s = State.UNINITIALIZED ∨ s = State.INITIALIZING ∨ s = State.INITIALIZED then
    (m, 0)
  else if s = State.DISCONNECTING ∨ s = State.STOPPING then
    (if s = State.DISCONNECTING then { m with current_state := State.DISCONNECTED } else m,
     DISCONNECTED_BIT ||| CONNECT_FAILED_BIT)
  else if reason = WIFI_REASON_ASSOC_LEAVE then
    ({ m with current_state := State.DISCONNECTED },
     DISCONNECTED_BIT ||| CONNECT_FAILED_BIT)
  else if reason = WIFI_REASON_AUTH_FAIL ∨ reason = WIFI_REASON_8021X_AUTH_FAILED ∨
      reason = WIFI_REASON_4WAY_HANDSHAKE_TIMEOUT ∨
      reason = WIFI_REASON_HANDSHAKE_TIMEOUT then
    ({ m with current_state := State.ERROR_CREDENTIALS, is_credential_valid := false },
     CONNECT_FAILED_BIT)
  else if reason = WIFI_REASON_CONNECTION_FAIL then
    let sc := (m.suspect_retry_count + 1) % 2 ^ 32
    if 3 ≤ sc then
      ({ m with suspect_retry_count := sc,
                current_state := State.ERROR_CREDENTIALS,
                is_credential_valid := false }, CONNECT_FAILED_BIT)
    else
      let rc := (m.retry_count + 1) % 2 ^ 32
      let delay_ms := (1000 * 2 ^ (rc - 1)) % 2 ^ 32
      let delay_ms := if 300000 < delay_ms then 300000 else delay_ms
      ({ m with suspect_retry_count := sc,
                current_state := State.WAITING_RECONNECT,
                retry_count := rc,
                next_reconnect_ms := (now_ms + delay_ms) % 2 ^ 64 }, CONNECT_FAILED_BIT)
  else
    if m.is_credential_valid then
      let rc := (m.retry_count + 1) % 2 ^ 32
      let delay_ms :=
        if 1 < rc then
          let d := (2 ^ (rc - 1) * 1000) % 2 ^ 32
          if 300000 < d then 300000 else d
        else 1000
      ({ m with current_state := State.WAITING_RECONNECT,
                retry_count := rc,
                next_reconnect_ms := (now_ms + delay_ms) % 2 ^ 64 }, CONNECT_FAILED_BIT)
    else
      ({ m with current_state := State.DISCONNECTED }, CONNECT_FAILED_BIT)

/-- The CommandId::HANDLE_EVENT_IP processing of src/wifi_manager.cpp
lines 1126-1143: only IP_EVENT_STA_GOT_IP is examined; in CONNECTING or
CONNECTED_NO_IP it moves to CONNECTED_GOT_IP, zeroes both retry counters,
leaves the validity flag true (persisting it when it was false) and
releases CONNECTED_BIT; any other ip event id or state is ignored. -/
def handle_event_ip (m : MgrState) (ip_event_id : Nat) : MgrState × Nat :=
  if ip_event_id = IP_EVENT_STA_GOT_IP then
    if m.current_state = State.CONNECTING ∨ m.current_state = State.CONNECTED_NO_IP then
      ({ m with current_state := State.CONNECTED_GOT_IP,
                retry_count := 0,
                suspect_retry_count := 0,
                is_credential_valid := true }, CONNECTED_BIT)
    else (m, 0)
  else (m, 0)

/-- The CommandId::DISCONNECT processing of src/wifi_manager.cpp lines
939-999.  Returns the updated state, the sync bits released, and whether
esp_wifi_disconnect() was invoked; `driver_ok` is the driver's return in
the branch that checks it (the CONNECTING / WAITING_RECONNECT special
case ignores the driver's return).  The source lists both labels of each
alias pair (DISCONNECTED/STARTED, STOPPED/INITIALIZED) although the enum
values coincide; for each shared value this embedding takes the branch
whose comment describes the alias (already-disconnected for STARTED,
not-operational for INITIALIZED). -/
def disconnect_cmd_handler (m : MgrState) (driver_ok : Bool) :
    MgrState × Nat × Bool :=
  match m.current_state with
  | State.UNINITIALIZED | State.INITIALIZING | State.INITIALIZED
  | State.STARTING | State.STOPPING => (m, INVALID_STATE_BIT, false)
  | State.STARTED => (m, DISCONNECTED_BIT, false)
  | State.DISCONNECTING => (m, 0, false)
  | State.CONNECTING | State.WAITING_RECONNECT =>
      ({ m with current_state := State.DISCONNECTED }, DISCONNECTED_BIT, true)
  | State.CONNECTED_NO_IP | State.CONNECTED_GOT_IP | State.ERROR_CREDENTIALS =>
      if driver_ok then
        ({ m with current_state := State.DISCONNECTING }, 0, true)
      else (m, CONNECT_FAILED_BIT, true)

/-- The queue-timeout branch of the worker loop, src/wifi_manager.cpp
lines 1155-1169: only in WAITING_RECONNECT, retry (esp_wifi_connect) when
credentials are valid, else fall back to DISCONNECTED.  Returns the new
state and whether the driver connect was invoked. -/
def reconnect_on_timeout (m : MgrState) : MgrState × Bool :=
  if m.current_state = State.WAITING_RECONNECT then
    if m.is_credential_valid then
      ({ m with current_state := State.CONNECTING }, true)
    else ({ m with current_state := State.DISCONNECTED }, false)
  else (m, false)

/-- Outcome of a public API call's caller-thread prologue. -/
inductive ApiPrologue
  | invalid_state
  | posted
deriving DecidableEq

/-- The caller-thread prologue shared by the eight
start/stop/connect/disconnect variants of src/wifi_manager.cpp (lines
347-351, 384-387, 396-400, 428-431, 440-444, 478-481, 490-494, 523-526):
the only validation before posting is `get_state() == UNINITIALIZED`
together with the null-handle checks; in every other state the call
proceeds to enqueue the command. -/
def api_prologue (s : State) (handles_ok : Bool) : ApiPrologue :=
  if s = State.UNINITIALIZED ∨ handles_ok = false then ApiPrologue.invalid_state
  else ApiPrologue.posted

theorem backoff_delay_of_succ (rc : Nat) :
    backoff_delay_of (rc + 1) = min 300000 (1000 * 2 ^ min rc 8) := by
  rcases le_or_lt rc 8 with h | h
  · have hm : min rc 8 = rc := Nat.min_eq_left h
    rw [hm]
    interval_cases rc <;> decide
  · have hm : min rc 8 = 8 := Nat.min_eq_right (Nat.le_of_lt h)
    rw [hm]
    have h0 : 0 < rc + 1 := Nat.succ_pos rc
    have h8 : 8 < rc + 1 - 1 := by omega
    simp only [backoff_delay_of, if_pos h0, if_pos h8]
    decide

/-- C3: for every state of the 12-state enumeration and every command in
{START, STOP, CONNECT, DISCONNECT}, the command validator's table
`s_command_matrix` returns exactly the Action given by the spec's condensed
table (`spec_command_table`), including the highlighted cells: ERROR for
everything in UNINITIALIZED and INITIALIZING, EXECUTE for START only in
INITIALIZED, SKIP for DISCONNECT in STARTED and DISCONNECTING, EXECUTE for
CONNECT and DISCONNECT in WAITING_RECONNECT and ERROR_CREDENTIALS, and in
STOPPING only STOP is SKIP while the rest are ERROR. -/
theorem c3_command_matrix_matches_spec_table :
    ∀ (s : State) (u : UserCmd),
      s_command_matrix s u.toCommandId = spec_command_table s u := by
  intro s u
  cases s <;> cases u <;> rfl

/-- C4: event strictness.  For every event, resolving it in any of the six
states UNINITIALIZED, INITIALIZING, INITIALIZED, STARTED, WAITING_RECONNECT,
ERROR_CREDENTIALS yields the same state back and an empty set of sync bits. -/
theorem c4_event_strictness :
    ∀ e : EventId,
      s_transition_matrix State.UNINITIALIZED e = ⟨State.UNINITIALIZED, 0⟩ ∧
      s_transition_matrix State.INITIALIZING e = ⟨State.INITIALIZING, 0⟩ ∧
      s_transition_matrix State.INITIALIZED e = ⟨State.INITIALIZED, 0⟩ ∧
      s_transition_matrix State.STARTED e = ⟨State.STARTED, 0⟩ ∧
      s_transition_matrix State.WAITING_RECONNECT e = ⟨State.WAITING_RECONNECT, 0⟩ ∧
      s_transition_matrix State.ERROR_CREDENTIALS e = ⟨State.ERROR_CREDENTIALS, 0⟩ := by
  intro e
  cases e <;> exact ⟨rfl, rfl, rfl, rfl, rfl, rfl⟩

/-- C1: the claim says `handle_suspect_failure(rssi)` compares the
incremented suspect counter against an RSSI-indexed limit (1 at −50 dBm per
`RETRY_LIMIT_GOOD`) and is terminal iff the counter reached it.  The body
in src/wifi_state_machine.cpp lines 166-174 takes no RSSI argument
(contradicting its own declaration in src/include/wifi_state_machine.hpp
line 68 and the unit test in
src/host_test/wifi_state_machine/main/test_wifi_state_machine.cpp
lines 51-84): starting from a fresh counter in CONNECTING, the first call —
where the claimed limit for rssi = −50 is RETRY_LIMIT_GOOD = 1, already
reached — returns false and leaves the state unchanged, and only the third
call is terminal, regardless of signal. -/
theorem c1_suspect_failure_ignores_rssi :
    (handle_suspect_failure ⟨State.CONNECTING, 0, 0, 0⟩).2 = false ∧
    (handle_suspect_failure ⟨State.CONNECTING, 0, 0, 0⟩).1.m_current_state = State.CONNECTING ∧
    (handle_suspect_failure ⟨State.CONNECTING, 0, 0, 0⟩).1.m_suspect_retry_count = 1 ∧
    suspect_retry_limit_spec (-50) = some RETRY_LIMIT_GOOD ∧
    RETRY_LIMIT_GOOD = 1 ∧
    (handle_suspect_failure
      (handle_suspect_failure ⟨State.CONNECTING, 0, 0, 0⟩).1).2 = false ∧
    (handle_suspect_failure (handle_suspect_failure
      (handle_suspect_failure ⟨State.CONNECTING, 0, 0, 0⟩).1).1).2 = true ∧
    (handle_suspect_failure (handle_suspect_failure
      (handle_suspect_failure ⟨State.CONNECTING, 0, 0, 0⟩).1).1).1.m_current_state =
        State.ERROR_CREDENTIALS := by
  decide

/-- C5: each `calculate_next_backoff` call increments `m_retry_count`,
produces `delay_ms = min(300000, 1000 * 2 ^ min(retry_count − 1, 8))` for
the post-increment count, sets `m_next_reconnect_ms = now_ms + delay_ms`,
moves to WAITING_RECONNECT, and the delay never exceeds 300000 ms;
starting from `m_retry_count = 0`, successive delays are
1000, 2000, 4000, … capped. -/
theorem c5_calculate_next_backoff (sm : WiFiStateMachine) (now_ms : Nat)
    (h1 : sm.m_retry_count + 1 < 2 ^ 32) (h2 : now_ms + 300000 < 2 ^ 64) :
    (calculate_next_backoff sm now_ms).1.m_retry_count = sm.m_retry_count + 1 ∧
    (calculate_next_backoff sm now_ms).2 =
      min 300000 (1000 * 2 ^ min ((calculate_next_backoff sm now_ms).1.m_retry_count - 1) 8) ∧
    (calculate_next_backoff sm now_ms).1.m_next_reconnect_ms =
      now_ms + (calculate_next_backoff sm now_ms).2 ∧
    (calculate_next_backoff sm now_ms).1.m_current_state = State.WAITING_RECONNECT ∧
    (calculate_next_backoff sm now_ms).2 ≤ 300000 ∧
    backoff_delay_schedule 10 =
      [1000, 2000, 4000, 8000, 16000, 32000, 64000, 128000, 256000, 256000] := by
  have hdelay : backoff_delay_of (sm.m_retry_count + 1) =
      min 300000 (1000 * 2 ^ min sm.m_retry_count 8) := backoff_delay_of_succ _
  have hle : backoff_delay_of (sm.m_retry_count + 1) ≤ 300000 := by
    rw [hdelay]; exact Nat.min_le_left _ _
  have heq : calculate_next_backoff sm now_ms =
      ({ sm with m_retry_count := sm.m_retry_count + 1,
                 m_next_reconnect_ms :=
                   now_ms + min 300000 (1000 * 2 ^ min sm.m_retry_count 8),
                 m_current_state := State.WAITING_RECONNECT },
       min 300000 (1000 * 2 ^ min sm.m_retry_count 8)) := by
    simp only [calculate_next_backoff, Nat.mod_eq_of_lt h1, hdelay]
    rw [Nat.mod_eq_of_lt (by omega : now_ms + min 300000 (1000 * 2 ^ min sm.m_retry_count 8) < 2 ^ 64)]
  rw [heq]
  refine ⟨rfl, ?_, rfl, rfl, Nat.min_le_left _ _, by decide⟩
  simp [Nat.add_sub_cancel]

/-- Witness for C5 at a concrete machine and clock. -/
theorem c5_witness :
    (⟨State.CONNECTED_GOT_IP, 0, 0, 0⟩ : WiFiStateMachine).m_retry_count + 1 < 2 ^ 32 ∧
    (7 : Nat) + 300000 < 2 ^ 64 ∧
    (calculate_next_backoff ⟨State.CONNECTED_GOT_IP, 0, 0, 0⟩ 7).1.m_current_state =
      State.WAITING_RECONNECT :=
  ⟨by decide, by decide,
    (c5_calculate_next_backoff ⟨State.CONNECTED_GOT_IP, 0, 0, 0⟩ 7
      (by decide) (by decide)).2.2.2.1⟩

/-- C9: a raw command value at or above `CommandId::COUNT` makes
`validate_command` return EXECUTE in every state, while `resolve_event`
with a raw event value at or above `EventId::COUNT` returns the current
state with no bits. -/
theorem c9_out_of_range_commands_execute :
    (∀ (sm : WiFiStateMachine) (cmd : Nat), 5 ≤ cmd →
      validate_command sm cmd = Action.EXECUTE) ∧
    (∀ (sm : WiFiStateMachine) (event : Nat), 6 ≤ event →
      resolve_event sm event = ⟨sm.m_current_state, 0⟩) := by
  constructor
  · intro sm cmd h
    simp [validate_command, h]
  · intro sm event h
    simp [resolve_event, h]

/-- Witness for C9 at the out-of-range command value 7. -/
theorem c9_witness :
    (5 : Nat) ≤ 7 ∧
    validate_command ⟨State.UNINITIALIZED, 0, 0, 0⟩ 7 = Action.EXECUTE :=
  ⟨by decide,
    c9_out_of_range_commands_execute.1 ⟨State.UNINITIALIZED, 0, 0, 0⟩ 7 (by decide)⟩

/-- C2 fails on the code: a single STA_DISCONNECTED with reason AUTH_FAIL
in CONNECTING with both counters at zero — one event, where the claimed
RSSI-indexed limit (2 at rssi = −60 dBm, per `suspect_retry_limit_spec`)
is not yet reached — immediately persists valid = false and moves to
ERROR_CREDENTIALS instead of counting the failure and entering
WAITING_RECONNECT (src/wifi_manager.cpp lines 1064-1073). -/
theorem c2_counterexample :
    sta_disconnected_handler ⟨State.CONNECTING, true, 0, 0, 0⟩ WIFI_REASON_AUTH_FAIL 0 =
      (⟨State.ERROR_CREDENTIALS, false, 0, 0, 0⟩, CONNECT_FAILED_BIT) ∧
    suspect_retry_limit_spec (-60) = some RETRY_LIMIT_MEDIUM ∧
    (⟨State.CONNECTING, true, 0, 0, 0⟩ : MgrState).suspect_retry_count + 1 <
      RETRY_LIMIT_MEDIUM ∧
    (sta_disconnected_handler ⟨State.CONNECTING, true, 0, 0, 0⟩
        WIFI_REASON_AUTH_FAIL 0).1.current_state ≠ State.WAITING_RECONNECT := by
  decide

/-- C2 amended: when STA_DISCONNECTED is processed in an active state
other than DISCONNECTING and STOPPING, the reasons AUTH_FAIL,
802_1X_AUTH_FAILED, 4WAY_HANDSHAKE_TIMEOUT and HANDSHAKE_TIMEOUT
invalidate credentials immediately (valid persisted false, state
ERROR_CREDENTIALS); only CONNECTION_FAIL is routed through the suspect
counter with fixed limit 3 — terminal exactly when the incremented
counter reaches 3, otherwise backoff into WAITING_RECONNECT with the
validity flag untouched — and each of these branches releases
CONNECT_FAILED_BIT. -/
theorem c2_suspect_reason_classification (m : MgrState) (reason now_ms : Nat)
    (h1 : m.current_state ≠ State.UNINITIALIZED)
    (h2 : m.current_state ≠ State.INITIALIZING)
    (h3 : m.current_state ≠ State.INITIALIZED)
    (h4 : m.current_state ≠ State.DISCONNECTING)
    (h5 : m.current_state ≠ State.STOPPING) :
    ((reason = WIFI_REASON_AUTH_FAIL ∨ reason = WIFI_REASON_8021X_AUTH_FAILED ∨
        reason = WIFI_REASON_4WAY_HANDSHAKE_TIMEOUT ∨
        reason = WIFI_REASON_HANDSHAKE_TIMEOUT) →
      sta_disconnected_handler m reason now_ms =
        ({ m with current_state := State.ERROR_CREDENTIALS,
                  is_credential_valid := false }, CONNECT_FAILED_BIT)) ∧
    (reason = WIFI_REASON_CONNECTION_FAIL →
      (3 ≤ (m.suspect_retry_count + 1) % 2 ^ 32 →
        sta_disconnected_handler m reason now_ms =
          ({ m with suspect_retry_count := (m.suspect_retry_count + 1) % 2 ^ 32,
                    current_state := State.ERROR_CREDENTIALS,
                    is_credential_valid := false }, CONNECT_FAILED_BIT)) ∧
      ((m.suspect_retry_count + 1) % 2 ^ 32 < 3 →
        (sta_disconnected_handler m reason now_ms).1.current_state =
            State.WAITING_RECONNECT ∧
        (sta_disconnected_handler m reason now_ms).1.suspect_retry_count =
            (m.suspect_retry_count + 1) % 2 ^ 32 ∧
        (sta_disconnected_handler m reason now_ms).1.retry_count =
            (m.retry_count + 1) % 2 ^ 32 ∧
        (sta_disconnected_handler m reason now_ms).1.is_credential_valid =
            m.is_credential_valid ∧
        (sta_disconnected_handler m reason now_ms).2 = CONNECT_FAILED_BIT)) := by
  constructor
  · rintro (hr | hr | hr | hr) <;> subst hr <;>
      simp [sta_disconnected_handler, h1, h2, h3, h4, h5,
        WIFI_REASON_AUTH_FAIL, WIFI_REASON_8021X_AUTH_FAILED,
        WIFI_REASON_4WAY_HANDSHAKE_TIMEOUT, WIFI_REASON_HANDSHAKE_TIMEOUT,
        WIFI_REASON_ASSOC_LEAVE]
  · rintro hr
    subst hr
    constructor
    · intro hge
      have hge4 : 3 ≤ (m.suspect_retry_count + 1) % 4294967296 := by omega
      simp [sta_disconnected_handler, h1, h2, h3, h4, h5,
        WIFI_REASON_CONNECTION_FAIL, WIFI_REASON_ASSOC_LEAVE,
        WIFI_REASON_AUTH_FAIL, WIFI_REASON_8021X_AUTH_FAILED,
        WIFI_REASON_4WAY_HANDSHAKE_TIMEOUT, WIFI_REASON_HANDSHAKE_TIMEOUT, hge4]
    · intro hlt
      have hnge4 : ¬ 3 ≤ (m.suspect_retry_count + 1) % 4294967296 := by omega
      simp [sta_disconnected_handler, h1, h2, h3, h4, h5,
        WIFI_REASON_CONNECTION_FAIL, WIFI_REASON_ASSOC_LEAVE,
        WIFI_REASON_AUTH_FAIL, WIFI_REASON_8021X_AUTH_FAILED,
        WIFI_REASON_4WAY_HANDSHAKE_TIMEOUT, WIFI_REASON_HANDSHAKE_TIMEOUT, hnge4]

/-- Witness for the amended C2 at a concrete manager state and reason. -/
theorem c2_witness :
    (⟨State.CONNECTING, true, 0, 0, 0⟩ : MgrState).current_state ≠
      State.UNINITIALIZED ∧
    sta_disconnected_handler ⟨State.CONNECTING, true, 0, 0, 0⟩
        WIFI_REASON_HANDSHAKE_TIMEOUT 5 =
      (⟨State.ERROR_CREDENTIALS, false, 0, 0, 0⟩, CONNECT_FAILED_BIT) :=
  ⟨by decide,
    (c2_suspect_reason_classification ⟨State.CONNECTING, true, 0, 0, 0⟩
        WIFI_REASON_HANDSHAKE_TIMEOUT 5 (by decide) (by decide) (by decide)
        (by decide) (by decide)).1 (Or.inr (Or.inr (Or.inr rfl)))⟩

/-- C6 fails on the code: in INITIALIZED the validator labels CONNECT as
ERROR, yet the caller-thread prologue of connect() still posts the
command (its only check is state ≠ UNINITIALIZED plus non-null handles);
the claim's ERROR → return-INVALID_STATE-without-posting does not hold on
the caller thread. -/
theorem c6_counterexample :
    s_command_matrix State.INITIALIZED CommandId.CONNECT = Action.ERROR ∧
    api_prologue State.INITIALIZED true = ApiPrologue.posted := by
  decide

/-- C6 amended: every public API variant of start/stop/connect/disconnect
performs only one caller-thread check before enqueuing — it returns
INVALID_STATE without posting exactly when the state is UNINITIALIZED or
the RTOS handles are missing, and posts the command in every other state;
full validation (including SKIP handling) happens later, in the worker. -/
theorem c6_api_prologue_only_checks_uninitialized :
    ∀ (s : State) (handles_ok : Bool),
      api_prologue s handles_ok = ApiPrologue.posted ↔
        (s ≠ State.UNINITIALIZED ∧ handles_ok = true) := by
  intro s h
  cases s <;> cases h <;> decide

/-- C7 fails on the code: the worker prologue zeroes both retry counters
for every non-event command id, including EXIT (src/wifi_manager.cpp lines
764-768), whereas the claim says EXIT leaves them alone. -/
theorem c7_counterexample :
    (worker_prologue ⟨State.CONNECTING, true, 7, 2, 0⟩ MgrCommandId.EXIT).retry_count = 0 ∧
    (worker_prologue ⟨State.CONNECTING, true, 7, 2, 0⟩
        MgrCommandId.EXIT).suspect_retry_count = 0 := by
  decide

/-- C7 amended: both retry counters are zeroed whenever a GOT_IP success
is processed and whenever the worker dequeues any command that is not
HANDLE_EVENT_WIFI and not HANDLE_EVENT_IP — that is, on START, STOP,
CONNECT, DISCONNECT and also on EXIT — and are left untouched by the two
event-carrier command ids. -/
theorem c7_retry_reset_policy (m : MgrState) (cmd : MgrCommandId)
    (h : cmd ≠ MgrCommandId.HANDLE_EVENT_WIFI ∧ cmd ≠ MgrCommandId.HANDLE_EVENT_IP) :
    worker_prologue m cmd = { m with retry_count := 0, suspect_retry_count := 0 } ∧
    worker_prologue m MgrCommandId.HANDLE_EVENT_WIFI = m ∧
    worker_prologue m MgrCommandId.HANDLE_EVENT_IP = m ∧
    ((m.current_state = State.CONNECTING ∨ m.current_state = State.CONNECTED_NO_IP) →
      (handle_event_ip m IP_EVENT_STA_GOT_IP).1.retry_count = 0 ∧
      (handle_event_ip m IP_EVENT_STA_GOT_IP).1.suspect_retry_count = 0) := by
  refine ⟨?_, ?_, ?_, ?_⟩
  · simp [worker_prologue, h.1, h.2]
  · simp [worker_prologue]
  · simp [worker_prologue]
  · rintro (hs | hs) <;> simp [handle_event_ip, hs]

/-- Witness for the amended C7: dequeuing EXIT with nonzero counters. -/
theorem c7_witness :
    (MgrCommandId.EXIT ≠ MgrCommandId.HANDLE_EVENT_WIFI ∧
      MgrCommandId.EXIT ≠ MgrCommandId.HANDLE_EVENT_IP) ∧
    worker_prologue ⟨State.STARTED, true, 7, 2, 0⟩ MgrCommandId.EXIT =
      ⟨State.STARTED, true, 0, 0, 0⟩ :=
  ⟨⟨by decide, by decide⟩,
    (c7_retry_reset_policy ⟨State.STARTED, true, 7, 2, 0⟩ MgrCommandId.EXIT
      ⟨by decide, by decide⟩).1⟩

/-- C8: a DISCONNECT command processed in CONNECTING or WAITING_RECONNECT
moves directly to DISCONNECTED (never DISCONNECTING), still calls the
driver's disconnect defensively, releases DISCONNECTED_BIT, and the
queue-timeout reconnect branch then does nothing — the pending reconnect
attempt is cancelled. -/
theorem c8_disconnect_during_connecting_or_backoff (m : MgrState) (driver_ok : Bool)
    (h : m.current_state = State.CONNECTING ∨
      m.current_state = State.WAITING_RECONNECT) :
    (disconnect_cmd_handler m driver_ok).1.current_state = State.DISCONNECTED ∧
    (disconnect_cmd_handler m driver_ok).1.current_state ≠ State.DISCONNECTING ∧
    (disconnect_cmd_handler m driver_ok).2.1 = DISCONNECTED_BIT ∧
    (disconnect_cmd_handler m driver_ok).2.2 = true ∧
    reconnect_on_timeout (disconnect_cmd_handler m driver_ok).1 =
      ((disconnect_cmd_handler m driver_ok).1, false) := by
  rcases h with h | h <;>
    simp [disconnect_cmd_handler, reconnect_on_timeout, h, State.DISCONNECTED]

/-- Witness for C8: disconnect issued while waiting out the backoff. -/
theorem c8_witness :
    ((⟨State.WAITING_RECONNECT, true, 1, 0, 99⟩ : MgrState).current_state =
        State.CONNECTING ∨
      (⟨State.WAITING_RECONNECT, true, 1, 0, 99⟩ : MgrState).current_state =
        State.WAITING_RECONNECT) ∧
    (disconnect_cmd_handler ⟨State.WAITING_RECONNECT, true, 1, 0, 99⟩
        true).1.current_state = State.DISCONNECTED :=
  ⟨Or.inr rfl,
    (c8_disconnect_during_connecting_or_backoff
      ⟨State.WAITING_RECONNECT, true, 1, 0, 99⟩ true (Or.inr rfl)).1⟩

/-- C10: the IP-event translator enqueues a message only for
IP_EVENT_STA_GOT_IP, and that message carries EventId::GOT_IP; for
IP_EVENT_STA_LOST_IP (and every other id) nothing is enqueued, so the
internal LOST_IP event — whose table cell drives
CONNECTED_GOT_IP → CONNECTED_NO_IP — is never produced through the
translator. -/
theorem c10_ip_translator_only_got_ip :
    (∀ (q : Bool) (id : Nat) (msg : Message),
        ip_event_handler q id = some msg →
          id = IP_EVENT_STA_GOT_IP ∧ msg.payload = MsgPayload.ev EventId.GOT_IP) ∧
    (∀ q : Bool, ip_event_handler q IP_EVENT_STA_LOST_IP = none) ∧
    s_transition_matrix State.CONNECTED_GOT_IP EventId.LOST_IP =
      ⟨State.CONNECTED_NO_IP, 0⟩ := by
  refine ⟨?_, ?_, rfl⟩
  · intro q id msg h
    by_cases hq : q = false
    · simp [ip_event_handler, hq] at h
    · by_cases hid : id = IP_EVENT_STA_GOT_IP
      · subst hid
        simp [ip_event_handler, hq] at h
        exact ⟨rfl, by rw [← h]⟩
      · simp [ip_event_handler, hq, hid] at h
  · intro q
    by_cases hq : q = false <;>
      simp [ip_event_handler, IP_EVENT_STA_LOST_IP, IP_EVENT_STA_GOT_IP, hq]

/-- Witness for C10 at the concrete GOT_IP event id. -/
theorem c10_witness :
    ip_event_handler true 0 =
      some ⟨MessageType.EVENT, MsgPayload.ev EventId.GOT_IP, 0, 0⟩ ∧
    (0 : Nat) = IP_EVENT_STA_GOT_IP :=
  ⟨rfl,
    (c10_ip_translator_only_got_ip.1 true 0
      ⟨MessageType.EVENT, MsgPayload.ev EventId.GOT_IP, 0, 0⟩ rfl).1⟩

end WifiManager
